import Mathlib

/-!
Verification of the dubplate immutable-record library (src/dubplate/__init__.py)
against its specification.

The Python module is shallowly embedded:

* Python values that can occur in a record are the inductive `PyVal`
  (`None`, booleans, integers, strings, `datetime.date`, `datetime.datetime`,
  lists, tuples, dict-likes as ordered association lists, and nested `Record`
  instances, which for serialization purposes carry their class name and
  validated record data, since `copy_record()` of a validated record returns
  exactly that data).
* Python dicts (including `frozendict` / `FrozenOrderedDict`) are association
  lists `List (String × PyVal)` with distinct keys, in insertion order.
* A raised exception is modelled as `Except.error` carrying the exception's
  message argument (Python's `str(KeyError(m))` adds surrounding quotes to
  `m`; we carry `m` itself).
* The per-type class attributes `fields`, `non_null_fields`,
  `require_all_fields`, `hash_index_fields` form the `Policy`; an undefined
  `fields` / `non_null_fields` / `hash_index_fields` is the empty list, which
  matches the code because the code only ever tests them for truthiness.
* Python `set` iteration order is implementation-defined.  Where the code
  joins an *unsorted* set into a message (`keys - set(fields)` and
  `set(fields) - keys`), the embedding uses a deterministic order (first
  appearance); no theorem here depends on that choice.
-/

namespace Dubplate

/-- Python values appearing in records. `date`/`datetime` carry their numeric
components; `datetime`'s last component is the microsecond. A nested `record`
carries the concrete class name and the validated record data (its side
attributes are unreachable through the dict-like interface and therefore do
not appear in the value embedding). -/
inductive PyVal where
  | none
  | bool (b : Bool)
  | int (n : Int)
  | str (s : String)
  | date (y m d : Nat)
  | datetime (y mo d h mi s micro : Nat)
  | list (l : List PyVal)
  | tuple (l : List PyVal)
  | dict (entries : List (String × PyVal))
  | record (cls : String) (data : List (String × PyVal))
deriving Repr

/- Structural equality of Python values, modelling `==`. (Python's numeric
cross-type equalities such as `1 == True` and the order-insensitivity of
nested-dict equality are not modelled; no claim depends on them.) -/
mutual

/-- Structural equality of Python values, modelling `==`. -/
def PyVal.beq : PyVal → PyVal → Bool
  | .none, .none => true
  | .bool a, .bool b => a == b
  | .int a, .int b => a == b
  | .str a, .str b => a == b
  | .date a b c, .date x y z => a == x && b == y && c == z
  | .datetime a b c d e f g, .datetime t u v w x y z =>
      a == t && b == u && c == v && d == w && e == x && f == y && g == z
  | .list a, .list b => PyVal.beqList a b
  | .tuple a, .tuple b => PyVal.beqList a b
  | .dict a, .dict b => PyVal.beqEntries a b
  | .record n a, .record m b => n == m && PyVal.beqEntries a b
  | _, _ => false

def PyVal.beqList : List PyVal → List PyVal → Bool
  | [], [] => true
  | a :: as, b :: bs => PyVal.beq a b && PyVal.beqList as bs
  | _, _ => false

def PyVal.beqEntries : List (String × PyVal) → List (String × PyVal) → Bool
  | [], [] => true
  | (k, a) :: as, (l, b) :: bs => k == l && PyVal.beq a b && PyVal.beqEntries as bs
  | _, _ => false

end

/-- Equality on optional values (a `dict.get` result). -/
def optBeq : Option PyVal → Option PyVal → Bool
  | Option.none, Option.none => true
  | some a, some b => PyVal.beq a b
  | _, _ => false

/-- Python truthiness (`bool(v)`) for the embedded values: `None`, `False`,
zero and empty containers/strings are falsy, everything else is truthy.
A `Record`'s truthiness comes from its `__len__`. -/
def pyTruthy : PyVal → Bool
  | .none => false
  | .bool b => b
  | .int n => n != 0
  | .str s => !s.isEmpty
  | .date _ _ _ => true
  | .datetime _ _ _ _ _ _ _ => true
  | .list l => !l.isEmpty
  | .tuple l => !l.isEmpty
  | .dict d => !d.isEmpty
  | .record _ d => !d.isEmpty

/-- Zero-padding to two digits, as `%02d`. -/
def pad2 (n : Nat) : String := if n < 10 then "0" ++ toString n else toString n

/-- Zero-padding to four digits, as `%04d` (years). -/
def pad4 (n : Nat) : String :=
  if n < 10 then "000" ++ toString n
  else if n < 100 then "00" ++ toString n
  else if n < 1000 then "0" ++ toString n
  else toString n

/-- Zero-padding to six digits, as `%06d` (microseconds). -/
def pad6 (n : Nat) : String :=
  if n < 10 then "00000" ++ toString n
  else if n < 100 then "0000" ++ toString n
  else if n < 1000 then "000" ++ toString n
  else if n < 10000 then "00" ++ toString n
  else if n < 100000 then "0" ++ toString n
  else toString n

/-- `datetime.date.isoformat()`. -/
def isoDate (y m d : Nat) : String := pad4 y ++ "-" ++ pad2 m ++ "-" ++ pad2 d

/-- `datetime.datetime.isoformat()` of a datetime whose microsecond is 0
(isoformat omits the fractional part exactly when the microsecond is 0). -/
def isoDateTimeSec (y mo d h mi s : Nat) : String :=
  isoDate y mo d ++ "T" ++ pad2 h ++ ":" ++ pad2 mi ++ ":" ++ pad2 s

/- Python `repr()` of the embedded values (string escaping inside `repr` of a
string and `repr`'s trailing-zero elision for datetimes are not modelled; no
claim depends on them). -/
mutual

/-- Python `repr()` of the embedded values. -/
def pyRepr : PyVal → String
  | .none => "None"
  | .bool b => if b then "True" else "False"
  | .int n => toString n
  | .str s => "'" ++ s ++ "'"
  | .date y m d =>
      "datetime.date(" ++ toString y ++ ", " ++ toString m ++ ", " ++ toString d ++ ")"
  | .datetime y mo d h mi s mc =>
      "datetime.datetime(" ++ toString y ++ ", " ++ toString mo ++ ", " ++ toString d ++ ", "
        ++ toString h ++ ", " ++ toString mi ++ ", " ++ toString s ++ ", " ++ toString mc ++ ")"
  | .list l => "[" ++ String.intercalate ", " (pyReprList l) ++ "]"
  | .tuple [x] => "(" ++ pyRepr x ++ ",)"
  | .tuple l => "(" ++ String.intercalate ", " (pyReprList l) ++ ")"
  | .dict d => "\x7b" ++ String.intercalate ", " (pyReprEntries d) ++ "\x7d"
  | .record cls d =>
      "<" ++ cls ++ ", \x7b" ++ String.intercalate ", " (pyReprEntries d) ++ "\x7d>"

def pyReprList : List PyVal → List String
  | [] => []
  | v :: rest => pyRepr v :: pyReprList rest

def pyReprEntries : List (String × PyVal) → List String
  | [] => []
  | (k, v) :: rest => ("'" ++ k ++ "': " ++ pyRepr v) :: pyReprEntries rest

end

/-- Python `str()` (used by `'{}:{}'.format`): identity on strings,
`isoformat` with a space separator for datetimes, `repr` otherwise. -/
def pyStr : PyVal → String
  | .str s => s
  | .date y m d => isoDate y m d
  | .datetime y mo d h mi s mc =>
      isoDate y mo d ++ " " ++ pad2 h ++ ":" ++ pad2 mi ++ ":" ++ pad2 s
        ++ (if mc = 0 then "" else "." ++ pad6 mc)
  | v => pyRepr v

/-- The `ValueError` message raised by `generate_hash_index_key` for a field
whose value has an unordered type. -/
def unordered_value_msg (field : String) : String :=
  "Fields that return unordered value types cannot be used to create hash keys. field: "
    ++ field

/-- The check `isinstance(value, (Sequence, int))` of `generate_hash_index_key`:
strings, lists and tuples are `Sequence`s; `bool` is a subclass of `int`.
Dates, datetimes, dicts and `Record`s are none of these. (`None` is falsy and
is always skipped before this check.) -/
def isSequenceOrInt : PyVal → Bool
  | .str _ => true
  | .list _ => true
  | .tuple _ => true
  | .int _ => true
  | .bool _ => true
  | _ => false

/-- The field loop of `generate_hash_index_key` (src/dubplate/__init__.py:84-96):
for each field in order, look the value up (`values_dict.get(field)`), skip it
when falsy, raise `ValueError` when it is truthy but not a `Sequence`/`int`,
and otherwise keep the segment `"<field>:<value>"`. -/
def ghik_field_values (values_dict : List (String × PyVal)) : List String → Except String (List String)
  | [] => .ok []
  | field :: rest =>
    let value := (values_dict.lookup field).getD .none
    if !pyTruthy value then ghik_field_values values_dict rest
    else if !isSequenceOrInt value then .error (unordered_value_msg field)
    else (ghik_field_values values_dict rest).map (fun tl => (field ++ ":" ++ pyStr value) :: tl)

/-- `generate_hash_index_key` (src/dubplate/__init__.py:58-100). Returns
`.ok Option.none` where Python returns `None`, `.ok (some key)` for a derived
key, and `.error` for the `ValueError` on unordered value types. Both the
guard `if fields and values_dict` and the guard `if obj_id` are Python
truthiness tests, so an `obj_id` of `0` behaves like an absent one. -/
def generate_hash_index_key (obj_type : String) (fields : List String)
    (values_dict : List (String × PyVal)) (obj_id : Option Int) : Except String (Option String) :=
  if !fields.isEmpty && !values_dict.isEmpty then
    (ghik_field_values values_dict fields).map (fun field_values =>
      if !field_values.isEmpty then
        let obj_str := match obj_id with
          | some i => if i ≠ 0 then obj_type ++ ":" ++ toString i else obj_type
          | Option.none => obj_type
        some (obj_str ++ ":" ++ String.intercalate ":" field_values)
      else Option.none)
  else .ok Option.none

/-- The per-type class attributes read by `Record` (src/dubplate/__init__.py):
`fields`, `non_null_fields`, `require_all_fields`, `hash_index_fields`.
An attribute a subclass does not define is the empty list / `false`; the code
only ever tests these for truthiness, so this encoding is exact. -/
structure Policy where
  fields : List String
  non_null_fields : List String
  require_all_fields : Bool
  hash_index_fields : List String
deriving Repr

/-- Duplicate-free list of names (Python `set(...)` as a list; which
occurrence survives is irrelevant, the callers sort or count the result). -/
def dedupNames : List String → List String
  | [] => []
  | x :: rest => if rest.contains x then dedupNames rest else x :: dedupNames rest

/-- Lexicographic comparison of names by character code points, as Python's
string comparison. -/
def charsLe : List Char → List Char → Bool
  | [], _ => true
  | _ :: _, [] => false
  | a :: as, b :: bs =>
    if a.toNat < b.toNat then true
    else if a.toNat = b.toNat then charsLe as bs
    else false

/-- String comparison by code points. -/
def strLe (a b : String) : Bool := charsLe a.data b.data

/-- Insertion of a name into a lexicographically sorted list. -/
def insertSorted (x : String) : List String → List String
  | [] => [x]
  | y :: rest => if strLe x y then x :: y :: rest else y :: insertSorted x rest

/-- Lexicographic insertion sort. -/
def sortNames : List String → List String
  | [] => []
  | x :: rest => insertSorted x (sortNames rest)

/-- Sorted (lexicographic), duplicate-free list of names: Python's
`sorted(<set of names>)`. -/
def sortedNames (l : List String) : List String :=
  sortNames (dedupNames l)

/-- The test `record[field] is None` for a field known to be present. -/
def isNoneAt (record : List (String × PyVal)) (f : String) : Bool :=
  match record.lookup f with
  | some .none => true
  | _ => false

/-- The `non_null_fields` block of `Record._set_record`
(src/dubplate/__init__.py:446-465): when `non_null_fields` is non-empty,
first every required name absent from the input is reported (all of them,
sorted and comma-joined), then every required name whose value `is None`
(again all of them, sorted).  The pluralization of the missing-required
message tests `len(missing)` where `missing` is the already-joined *string*
(`'s are' if len(missing) > 1 else ' is'`), and that is modelled faithfully;
the null-required message tests `len(null_fields)`, the length of the list. -/
def _check_non_null (p : Policy) (record : List (String × PyVal)) : Except String Unit :=
  let keys := record.map Prod.fst
  if p.non_null_fields.isEmpty then .ok () else
    let missing := String.intercalate ", "
      (sortedNames (p.non_null_fields.filter (fun f => !keys.contains f)))
    if missing ≠ "" then
      .error ("The following field" ++ (if missing.length > 1 then "s are" else " is")
        ++ " required: " ++ missing)
    else
      let null_fields := (dedupNames p.non_null_fields).filter (fun f => isNoneAt record f)
      if !null_fields.isEmpty then
        .error ("The following field" ++ (if null_fields.length > 1 then "s" else "")
          ++ " can not be None: " ++ String.intercalate ", " (sortedNames null_fields))
      else .ok ()

/-- The `fields` block of `Record._set_record` (src/dubplate/__init__.py:466-491):
when `fields` is declared, a key set that is a *proper superset* of
`set(fields)` (the code's `keys > set(fields)`) raises the extra-keys error; a
*proper subset* raises the missing-keys error only under `require_all_fields`;
otherwise the result is the `FrozenOrderedDict` over `fields` in declared
order, each field looked up in the input and defaulting to `None`.  Without
`fields` the input becomes a `frozendict` unchanged. -/
def _apply_fields (p : Policy) (record : List (String × PyVal)) :
    Except String (List (String × PyVal)) :=
  let fields := p.fields
  let keys := record.map Prod.fst
  if !fields.isEmpty then
    if fields.all (fun f => keys.contains f) && keys.any (fun k => !fields.contains k) then
      .error ("Extra keys: " ++ String.intercalate ", " (keys.filter (fun k => !fields.contains k))
        ++ ". Only the following keys can be used in the record: "
        ++ String.intercalate ", " fields)
    else if (keys.all (fun k => fields.contains k) && fields.any (fun f => !keys.contains f))
        && p.require_all_fields then
      .error ("Missing keys: " ++ String.intercalate ", " (fields.filter (fun f => !keys.contains f))
        ++ ". The following keys must be used in the record: "
        ++ String.intercalate ", " fields)
    else
      .ok (fields.map (fun f => (f, (record.lookup f).getD .none)))
  else .ok record

/-- `Record._set_record` (src/dubplate/__init__.py:440-491): the validator.
The `non_null_fields` checks run first and the `fields` checks and the build
of the result mapping after them, exactly as the source's straight-line
control flow does. -/
def _set_record (p : Policy) (record : List (String × PyVal)) : Except String (List (String × PyVal)) :=
  (_check_non_null p record).bind (fun _ => _apply_fields p record)

/-- A constructed `Record` instance: the concrete class name, the class's
policy, the subclass `__slots__` names, the side-attribute values the
subclass `__init__` assigned, the `_initialized` flag, and the validated
record data (`self.__record`). -/
structure Record where
  className : String
  policy : Policy
  slotNames : List String
  slotVals : List (String × PyVal)
  _initialized : Bool
  data : List (String × PyVal)
deriving Repr

/-- `Record.__init__` (src/dubplate/__init__.py:361-370) after the subclass
has assigned its side attributes: validates the keyword arguments through
`_set_record` and seals the instance (`_initialized = True`). -/
def record_init (className : String) (p : Policy) (slotNames : List String)
    (slotVals : List (String × PyVal)) (kwargs : List (String × PyVal)) : Except String Record :=
  (_set_record p kwargs).map (fun d => ⟨className, p, slotNames, slotVals, true, d⟩)

/-- `frozendict.copy(**add_or_replace)`: the original entries, with overridden
keys replaced in place, and keys new to the mapping appended in order. -/
def dict_copy (base overrides : List (String × PyVal)) : List (String × PyVal) :=
  base.map (fun kv => (kv.1, (overrides.lookup kv.1).getD kv.2))
    ++ overrides.filter (fun kv => !(base.map Prod.fst).contains kv.1)

/-- `Record.copy_record` (src/dubplate/__init__.py:510-516): copy the record
data updated with `kwargs` and re-validate it through `_set_record`. -/
def Record.copy_record (r : Record) (kwargs : List (String × PyVal)) :
    Except String (List (String × PyVal)) :=
  _set_record r.policy (dict_copy r.data kwargs)

/-- `Record.__setattr__` (src/dubplate/__init__.py:410-418): raises `TypeError`
once `_initialized` is truthy, otherwise performs the plain attribute write. -/
def Record.setattr (r : Record) (name : String) (value : PyVal) : Except String Record :=
  if r._initialized then
    .error ("'" ++ r.className ++ "' object does not support attribute assignment")
  else
    .ok { r with slotVals := dict_copy r.slotVals [(name, value)] }

/-- `Record.__delattr__` (src/dubplate/__init__.py:400-408): raises `TypeError`
once `_initialized` is truthy, otherwise performs the plain attribute delete. -/
def Record.delattr (r : Record) (name : String) : Except String Record :=
  if r._initialized then
    .error ("'" ++ r.className ++ "' object does not support attribute deletion")
  else
    .ok { r with slotVals := r.slotVals.filter (fun kv => kv.1 ≠ name) }

/-- `Record.__setitem__` (src/dubplate/__init__.py:426-431): always raises. -/
def Record.setitem (r : Record) (_name : String) (_value : PyVal) : Except String Record :=
  .error ("'" ++ r.className ++ "' object does not support item assignment")

/-- `Record.__delitem__` (src/dubplate/__init__.py:433-438): always raises. -/
def Record.delitem (r : Record) (_name : String) : Except String Record :=
  .error ("'" ++ r.className ++ "' object does not support item deletion")

/-- Python dict equality between two (possibly differently ordered) mappings:
the two mappings agree, as partial functions, on every key either side holds.
For duplicate-free association lists this is exactly `dict == dict`. -/
def pyDictEq (a b : List (String × PyVal)) : Bool :=
  a.all (fun kv => optBeq (a.lookup kv.1) (b.lookup kv.1)) &&
  b.all (fun kv => optBeq (a.lookup kv.1) (b.lookup kv.1))

/-- `Record.__eq__` against another record (src/dubplate/__init__.py:380-382):
`other == self.__record` delegates to mapping equality of the two data
mappings; neither the class name nor the side attributes participate. -/
def Record.eqRecord (r other : Record) : Bool := pyDictEq r.data other.data

/-- `Record.__eq__` against a plain mapping: mapping equality of the operand
with the record's data. -/
def Record.eqDict (r : Record) (other : List (String × PyVal)) : Bool :=
  pyDictEq other r.data

/-- `Record.__ne__` (src/dubplate/__init__.py:384-386). -/
def Record.neRecord (r other : Record) : Bool := !Record.eqRecord r other

/-- `Record.__len__` (src/dubplate/__init__.py:388-390). -/
def Record.lenRecord (r : Record) : Nat := r.data.length

/-- `Record.containsKey` models `__contains__` (src/dubplate/__init__.py:376-378). -/
def Record.containsKey (r : Record) (name : String) : Bool :=
  (r.data.lookup name).isSome

/-- `frozendict.__hash__`: the XOR over `hash((key, value))` of all items.
The per-item hash `hash((key, value))` is Python's builtin, external to this
module, so it is a parameter `h`; the accumulation structure is the model. -/
def frozendict_hash (h : String × PyVal → Nat) (entries : List (String × PyVal)) : Nat :=
  entries.foldl (fun acc kv => acc ^^^ h kv) 0

/-- `Record.__hash__` (src/dubplate/__init__.py:392-394): the hash of the
underlying frozen mapping, over the record data only. -/
def Record.hashRecord (h : String × PyVal → Nat) (r : Record) : Nat :=
  frozendict_hash h r.data

/-- `getattr(self, key, None)` for a side attribute (a slot that was never
assigned, or an unknown name, yields the default `None`). -/
def Record.slot_getattr (r : Record) (key : String) : PyVal :=
  (r.slotVals.lookup key).getD .none

/-- `Record.get_hash_index_key` (src/dubplate/__init__.py:522-537): resolve
the key fields as `hash_index_fields or fields or []`, collect the values of
key fields that are subclass slots, merge them into the record data via
`copy_record` (which re-validates!), and delegate to
`generate_hash_index_key` under the concrete class name. -/
def Record.get_hash_index_key (r : Record) : Except String (Option String) :=
  let class_name := r.className
  let fields := r.policy.fields
  let key_fields := if !r.policy.hash_index_fields.isEmpty then r.policy.hash_index_fields
    else fields
  let slots_dict := (key_fields.filter (fun k => r.slotNames.contains k)).map
    (fun k => (k, r.slot_getattr k))
  (r.copy_record slots_dict).bind (fun value_dict =>
    generate_hash_index_key class_name key_fields value_dict Option.none)

/-- `_convert_datetime` (src/dubplate/__init__.py:26-32): a datetime becomes
its `isoformat` string with the microsecond replaced by 0, a date becomes its
`isoformat` string, every other value passes through unchanged. -/
def _convert_datetime : PyVal → PyVal
  | .datetime y mo d h mi s _ => .str (isoDateTimeSec y mo d h mi s)
  | .date y m d => .str (isoDate y m d)
  | v => v

/-- `_convert_list_datetime` (src/dubplate/__init__.py:35-37): `_convert_datetime`
mapped over the elements — one level only, with no recursion into nested
containers. -/
def _convert_list_datetime (lst : List PyVal) : List PyVal :=
  lst.map _convert_datetime

/- `_convert_dict_datetime` (src/dubplate/__init__.py:40-54): rebuilds the
mapping, converting list and tuple values through `_convert_list_datetime`
(tuples become lists), recursing into dict values, expanding a nested
`Record` value to `_convert_dict_datetime(value.copy_record())` — which is
its validated data — and converting every other value with
`_convert_datetime`.  The per-entry dispatch on the value is split into
`_convert_dict_value` so that the mutual recursion is structural. -/
mutual

/-- The per-value dispatch of the loop body of `_convert_dict_datetime`. -/
def _convert_dict_value : PyVal → PyVal
  | .list l => .list (_convert_list_datetime l)
  | .tuple l => .list (_convert_list_datetime l)
  | .dict d => .dict (_convert_dict_datetime d)
  | .record _ data => .dict (_convert_dict_datetime data)
  | v => _convert_datetime v

/-- The rebuilt mapping, one converted entry per input entry, in order. -/
def _convert_dict_datetime : List (String × PyVal) → List (String × PyVal)
  | [] => []
  | (k, v) :: rest => (k, _convert_dict_value v) :: _convert_dict_datetime rest

end

/-- JSON values, the output structure of `json.JSONEncoder` (the final
`json.dumps` rendering of this tree to text is the standard library's and is
not re-modelled). -/
inductive Json where
  | null
  | jbool (b : Bool)
  | jnum (n : Int)
  | jstr (s : String)
  | jarr (l : List Json)
  | jobj (entries : List (String × Json))
deriving Repr

/- The JSON encoder with `RecordJSONEncoder.default`
(src/dubplate/__init__.py:103-113). `encodeRaw` is `json.JSONEncoder` on a
value that was not produced by the converters: primitives encode natively,
lists/tuples/dicts recurse, and any other object `o` goes through
`default(o)`, i.e. `_convert_dict_datetime(o.copy_record())` — which works
for a `Record` (its converted data is then encoded) and raises
`AttributeError` for a bare `date`/`datetime`.  `encodeConvEntries v` is the
fusion `encodeRawEntries (_convert_dict_datetime v)` (and `encodeConvList`
the fusion over `_convert_list_datetime`), stated and proved as
`encodeConv_eq_encodeRaw_convert` below, so that the mutual recursion stays
structural. -/
mutual

/-- `json.JSONEncoder` (with `RecordJSONEncoder.default`) on an unconverted value. -/
def encodeRaw : PyVal → Except String Json
  | .none => .ok .null
  | .bool b => .ok (.jbool b)
  | .int n => .ok (.jnum n)
  | .str s => .ok (.jstr s)
  | .date _ _ _ => .error "'datetime.date' object has no attribute 'copy_record'"
  | .datetime _ _ _ _ _ _ _ =>
      .error "'datetime.datetime' object has no attribute 'copy_record'"
  | .list l => (encodeRawList l).map .jarr
  | .tuple l => (encodeRawList l).map .jarr
  | .dict d => (encodeRawEntries d).map .jobj
  | .record _ data => (encodeConvEntries data).map .jobj

/-- The encoder on the elements of an unconverted list. -/
def encodeRawList : List PyVal → Except String (List Json)
  | [] => .ok []
  | v :: rest =>
      (encodeRaw v).bind (fun j => (encodeRawList rest).map (fun tl => j :: tl))

/-- The encoder on the entries of an unconverted mapping. -/
def encodeRawEntries : List (String × PyVal) → Except String (List (String × Json))
  | [] => .ok []
  | (k, v) :: rest =>
      (encodeRaw v).bind (fun j => (encodeRawEntries rest).map (fun tl => (k, j) :: tl))

/-- The encoder on `_convert_dict_datetime` of a mapping (fused). -/
def encodeConvEntries : List (String × PyVal) → Except String (List (String × Json))
  | [] => .ok []
  | (k, v) :: rest =>
      (encodeConvVal v).bind (fun j => (encodeConvEntries rest).map (fun tl => (k, j) :: tl))

/-- The encoder on a converted dict value: containers as `_convert_dict_datetime`
rebuilds them, temporal values as the `isoformat` strings `_convert_datetime`
left, atoms natively. -/
def encodeConvVal : PyVal → Except String Json
  | .none => .ok .null
  | .bool b => .ok (.jbool b)
  | .int n => .ok (.jnum n)
  | .str s => .ok (.jstr s)
  | .date y m d => .ok (.jstr (isoDate y m d))
  | .datetime y mo d h mi s _ => .ok (.jstr (isoDateTimeSec y mo d h mi s))
  | .list l => (encodeConvList l).map .jarr
  | .tuple l => (encodeConvList l).map .jarr
  | .dict d => (encodeConvEntries d).map .jobj
  | .record _ data => (encodeConvEntries data).map .jobj

/-- The encoder on `_convert_list_datetime` of a list: direct temporal elements
were converted to strings, every other element is encoded raw. -/
def encodeConvList : List PyVal → Except String (List Json)
  | [] => .ok []
  | v :: rest =>
      (match v with
        | .date y m d => (.ok (.jstr (isoDate y m d)) : Except String Json)
        | .datetime y mo d h mi s _ => .ok (.jstr (isoDateTimeSec y mo d h mi s))
        | w => encodeRaw w).bind
        (fun j => (encodeConvList rest).map (fun tl => j :: tl))

end

/-- `Record.json` (src/dubplate/__init__.py:518-520):
`RecordJSONEncoder().encode(self)`.  The record itself is not natively
serializable, so the encoder calls `default(self)`, i.e. it encodes
`_convert_dict_datetime(self.copy_record())` — the record's converted data,
and nothing else (no side attributes, no class name). -/
def Record.json (r : Record) : Except String Json :=
  encodeRaw (.record r.className r.data)

/-! Helper lemmas about the embedding, shared by the claim theorems below. -/

mutual

/-- `PyVal.beq` is reflexive (Python `v == v` on the embedded values). -/
theorem PyVal.beq_refl : (v : PyVal) → PyVal.beq v v = true
  | .none => rfl
  | .bool b => by simp [PyVal.beq]
  | .int n => by simp [PyVal.beq]
  | .str s => by simp [PyVal.beq]
  | .date _ _ _ => by simp [PyVal.beq]
  | .datetime _ _ _ _ _ _ _ => by simp [PyVal.beq]
  | .list l => by simp [PyVal.beq, PyVal.beqList_refl l]
  | .tuple l => by simp [PyVal.beq, PyVal.beqList_refl l]
  | .dict d => by simp [PyVal.beq, PyVal.beqEntries_refl d]
  | .record n d => by simp [PyVal.beq, PyVal.beqEntries_refl d]

/-- Reflexivity of `PyVal.beqList`. -/
theorem PyVal.beqList_refl : (l : List PyVal) → PyVal.beqList l l = true
  | [] => rfl
  | v :: rest => by simp [PyVal.beqList, PyVal.beq_refl v, PyVal.beqList_refl rest]

/-- Reflexivity of `PyVal.beqEntries`. -/
theorem PyVal.beqEntries_refl : (l : List (String × PyVal)) → PyVal.beqEntries l l = true
  | [] => rfl
  | (k, v) :: rest => by
      simp [PyVal.beqEntries, PyVal.beq_refl v, PyVal.beqEntries_refl rest]

end

/-- Reflexivity of `optBeq`. -/
theorem optBeq_refl : (o : Option PyVal) → optBeq o o = true
  | Option.none => rfl
  | some v => PyVal.beq_refl v

/-- A mapping is `dict`-equal to itself. -/
theorem pyDictEq_refl (d : List (String × PyVal)) : pyDictEq d d = true := by
  simp only [pyDictEq, List.all_eq_true, Bool.and_self]
  intro kv _
  exact optBeq_refl (d.lookup kv.1)

/-- A successful lookup comes from an entry of the list with that key. -/
theorem lookup_mem {l : List (String × PyVal)} {k : String} {v : PyVal}
    (h : l.lookup k = some v) : ∃ p, p ∈ l ∧ p.1 = k := by
  induction l with
  | nil => simp [List.lookup] at h
  | cons x t ih =>
      obtain ⟨a, b⟩ := x
      rw [List.lookup] at h
      cases hk : k == a with
      | true =>
          exact ⟨(a, b), List.mem_cons_self _ _, (eq_of_beq hk).symm⟩
      | false =>
          rw [hk] at h
          obtain ⟨p, hp, hk⟩ := ih h
          exact ⟨p, List.mem_cons_of_mem _ hp, hk⟩

/-- Lookup in a duplicate-free association list is invariant under
permutation of the entries. -/
theorem lookup_eq_of_perm : ∀ {l₁ l₂ : List (String × PyVal)}, l₁.Perm l₂ →
    (l₁.map Prod.fst).Nodup → ∀ k, l₁.lookup k = l₂.lookup k := by
  intro l₁ l₂ p
  induction p with
  | nil => intro _ _; rfl
  | cons x p ih =>
      intro nd k
      obtain ⟨a, b⟩ := x
      simp only [List.map_cons, List.nodup_cons] at nd
      rw [List.lookup, List.lookup]
      cases k == a
      · exact ih nd.2 k
      · rfl
  | swap x y t =>
      intro nd k
      obtain ⟨a, b⟩ := x
      obtain ⟨c, d⟩ := y
      simp only [List.map_cons, List.nodup_cons, List.mem_cons] at nd
      rw [List.lookup, List.lookup, List.lookup, List.lookup]
      cases hc : k == c <;> cases ha : k == a <;> try rfl
      exact absurd ((eq_of_beq hc).symm.trans (eq_of_beq ha)) (by tauto)
  | trans p₁ p₂ ih₁ ih₂ =>
      intro nd k
      have nd₂ : (_ : List String).Nodup := ((p₁.map Prod.fst).nodup_iff).1 nd
      rw [ih₁ nd k, ih₂ nd₂ k]

/-- The XOR fold of `frozendict.__hash__` is invariant under permutation of
the items: XOR is associative and commutative. -/
theorem frozendict_hash_perm (h : String × PyVal → Nat) :
    ∀ {l₁ l₂ : List (String × PyVal)}, l₁.Perm l₂ →
    ∀ acc : Nat, l₁.foldl (fun a kv => a ^^^ h kv) acc = l₂.foldl (fun a kv => a ^^^ h kv) acc := by
  intro l₁ l₂ p
  induction p with
  | nil => intro _; rfl
  | cons x p ih => intro acc; simp only [List.foldl_cons]; exact ih _
  | swap x y t =>
      intro acc
      simp only [List.foldl_cons]
      congr 1
      rw [Nat.xor_assoc, Nat.xor_comm (h y) (h x), ← Nat.xor_assoc]
  | trans p₁ p₂ ih₁ ih₂ => intro acc; rw [ih₁, ih₂]

/-- Looking a declared field up in the built result mapping yields the
defaulted value of that field. -/
theorem lookup_map_apply (g : String → PyVal) : ∀ (fs : List String) (f : String), f ∈ fs →
    (fs.map (fun x => (x, g x))).lookup f = some (g f) := by
  intro fs
  induction fs with
  | nil => intro f hf; cases hf
  | cons a t ih =>
      intro f hf
      rw [List.map_cons, List.lookup]
      cases hfa : f == a with
      | true => rw [eq_of_beq hfa]
      | false =>
          rcases List.mem_cons.1 hf with h | h
          · rw [h] at hfa; simp at hfa
          · exact ih f h

/-- Two mappings that hold the same key/value pairs (one a duplicate-free
permutation of the other) are `dict`-equal. -/
theorem pyDictEq_of_perm {m d : List (String × PyVal)} (p : m.Perm d)
    (nd : (m.map Prod.fst).Nodup) : pyDictEq m d = true := by
  have hl : ∀ k, m.lookup k = d.lookup k := lookup_eq_of_perm p nd
  simp only [pyDictEq, List.all_eq_true, Bool.and_eq_true]
  exact ⟨fun kv _ => by rw [hl kv.1]; exact optBeq_refl _,
    fun kv _ => by rw [hl kv.1]; exact optBeq_refl _⟩

/-- Appending different suffixes to one prefix yields different strings. -/
theorem append_right_ne {a b c : String} (h : b.length ≠ c.length) : a ++ b ≠ a ++ c := by
  intro e
  apply h
  have hlen := congrArg String.length e
  simp only [String.length_append] at hlen
  omega

/-! Shared concrete fixtures, taken from the repository's test suite
(src/dubplate/tests/test_dubplate.py): `FieldRecord` declares
`fields = ('a','b','c')` and `non_null_fields = ('a','b')` on a base with
`__slots__ = ['service', 'test']`. -/

/-- The policy of the test suite's `FieldRecord`. -/
def fieldPolicy : Policy := ⟨["a", "b", "c"], ["a", "b"], false, []⟩

/-- A `fields`-only policy (no non-null names), isolating the `fields` checks. -/
def plainFieldsPolicy : Policy := ⟨["a", "b", "c"], [], false, []⟩

/-- The policy of the test suite's `RequiredFieldRecord` (`non_null_fields`
only). -/
def requiredPolicy : Policy := ⟨[], ["a", "b"], false, []⟩

/-- The instance `FieldRecord('red', 1, a=2, b=3, c=4)` of the test suite
(side attributes `service='red'`, `test=1`). -/
def fieldRec : Record :=
  ⟨"FieldRecord", fieldPolicy, ["service", "test"],
    [("service", PyVal.str "red"), ("test", PyVal.int 1)], true,
    [("a", PyVal.int 2), ("b", PyVal.int 3), ("c", PyVal.int 4)]⟩

/-! The claims. -/

/-- C1 (code_bug evidence). The claim: whenever the supplied keys are not a
subset of the declared `fields`, validation fails with the extra-keys error,
"regardless of whether the supplied keys also omit some declared fields".
The code tests `keys > set(fields)` — a *proper superset* — so an extra key
combined with an omitted declared field raises nothing: `{a: 2, d: 5}`
against `fields = (a, b, c)` validates successfully, silently drops `d`, and
defaults `b` and `c` to `None`.  (The extra-keys error does fire when every
declared field was supplied, second conjunct, which is the one case the test
suite exercises.)  This contradicts the module's own docstring, "If a record
key=value is supplied and key is not in fields a KeyError is raised". -/
theorem C1_extra_key_silently_dropped :
    _set_record plainFieldsPolicy [("a", PyVal.int 2), ("d", PyVal.int 5)]
        = .ok [("a", PyVal.int 2), ("b", PyVal.none), ("c", PyVal.none)]
      ∧ _set_record plainFieldsPolicy
          [("a", PyVal.int 2), ("b", PyVal.int 3), ("c", PyVal.int 4), ("d", PyVal.int 5)]
        = .error "Extra keys: d. Only the following keys can be used in the record: a, b, c" :=
  ⟨rfl, rfl⟩

/-- C5 (code_bug evidence). The claim: every validation error message
pluralizes correctly, and the two required-field checks batch all offenders.
The batching holds (second and third conjuncts, naming exactly `b`, then both
`a` and `b`).  But the missing-required message chooses its plural by
`len(missing)` where `missing` is the already-joined *string*, so a single
missing field with the two-character name `ab` yields the plural
"The following fields are required: ab" (first conjunct). -/
theorem C5_pluralization_counts_characters :
    _set_record ⟨[], ["ab"], false, []⟩ []
        = .error "The following fields are required: ab"
      ∧ _set_record requiredPolicy [("a", PyVal.int 2)]
        = .error "The following field is required: b"
      ∧ _set_record requiredPolicy []
        = .error "The following fields are required: a, b" :=
  ⟨rfl, rfl, rfl⟩

/-- The policy of a record type declaring `fields = ('a',)` and
`hash_index_fields = ('a', 'test')`, where `test` is a side-attribute slot. -/
def hashSlotPolicy : Policy := ⟨["a"], [], false, ["a", "test"]⟩

/-- An instance of that type, constructed with `a=1` and side attributes
`service='svc'`, `test='t'`. -/
def hashSlotRec : Record :=
  ⟨"HashSlotRecord", hashSlotPolicy, ["service", "test"],
    [("service", PyVal.str "svc"), ("test", PyVal.str "t")], true,
    [("a", PyVal.int 1)]⟩

/-- C3 counterexample. The claim reads "the prefix is `object_type:object_id`
whenever an id is supplied" and "exactly those fields whose looked-up value is
neither null nor empty" are kept.  Both fail on Python truthiness: supplying
the id `0` yields the prefix `Book`, not `Book:0` (first conjunct), and the
value `0` — neither null nor an empty collection — is skipped, so `a` does
not appear in the key (second conjunct, where the claim demands
`Book:a:0:b:1`). -/
theorem C3_truthiness_counterexample :
    generate_hash_index_key "Book" ["a"] [("a", PyVal.int 1)] (some 0)
        = .ok (some "Book:a:1")
      ∧ generate_hash_index_key "Book" ["a", "b"]
          [("a", PyVal.int 0), ("b", PyVal.int 1)] Option.none
        = .ok (some "Book:b:1") :=
  ⟨rfl, rfl⟩

/-- The amended claim's key derivation, written the way the amended claim
reads (the spec's §4.3 steps with the two truthiness corrections): the result
is null when `fields` is empty, `values_dict` is empty, or no field survives;
a field survives exactly when its looked-up value is truthy (non-null,
non-zero, non-false, non-empty); the first surviving field with an unordered
value type fails the derivation; otherwise the key is the prefix —
`object_type:object_id` for a truthy (non-zero) supplied id, else
`object_type` — joined by `:` with one `field:value` segment per surviving
field in field order. -/
def generate_hash_index_key_amended (obj_type : String) (fields : List String)
    (values_dict : List (String × PyVal)) (obj_id : Option Int) : Except String (Option String) :=
  let valueOf := fun f => ((values_dict.lookup f).getD PyVal.none)
  let surviving := fields.filter (fun f => pyTruthy (valueOf f))
  if fields.isEmpty || values_dict.isEmpty then .ok Option.none
  else
    match surviving.find? (fun f => !isSequenceOrInt (valueOf f)) with
    | some f => .error (unordered_value_msg f)
    | Option.none =>
        if surviving.isEmpty then .ok Option.none
        else
          let obj_str := match obj_id with
            | some i => if i ≠ 0 then obj_type ++ ":" ++ toString i else obj_type
            | Option.none => obj_type
          .ok (some (obj_str ++ ":" ++ String.intercalate ":"
            (surviving.map (fun f => f ++ ":" ++ pyStr (valueOf f)))))

/-- The field loop of the generator in closed form: it fails at the first
*surviving* (truthy-valued) field whose value is unordered, and otherwise
returns the `field:value` segments of the surviving fields in order. -/
theorem ghik_field_values_eq (vd : List (String × PyVal)) : ∀ fs : List String,
    ghik_field_values vd fs =
      (match (fs.filter (fun f => pyTruthy ((vd.lookup f).getD PyVal.none))).find?
          (fun f => !isSequenceOrInt ((vd.lookup f).getD PyVal.none)) with
        | some f => .error (unordered_value_msg f)
        | Option.none =>
            .ok ((fs.filter (fun f => pyTruthy ((vd.lookup f).getD PyVal.none))).map
              (fun f => f ++ ":" ++ pyStr ((vd.lookup f).getD PyVal.none)))) := by
  intro fs
  induction fs with
  | nil => rfl
  | cons f rest ih =>
      rw [ghik_field_values]
      by_cases ht : pyTruthy ((vd.lookup f).getD PyVal.none)
      · rw [List.filter_cons_of_pos (by simpa using ht)]
        by_cases hs : isSequenceOrInt ((vd.lookup f).getD PyVal.none)
        · rw [List.find?_cons_of_neg _ (by simp [hs]), ih]
          simp only [ht, hs, Bool.not_true, Bool.not_false, Bool.false_eq_true, if_false,
            if_true]
          cases hfind : (rest.filter (fun f => pyTruthy ((vd.lookup f).getD PyVal.none))).find?
              (fun f => !isSequenceOrInt ((vd.lookup f).getD PyVal.none)) with
          | some g => rfl
          | none => rfl
        · rw [List.find?_cons_of_pos _ (by simp [hs])]
          simp [ht, hs]
      · rw [List.filter_cons_of_neg (by simpa using ht), ih]
        simp [ht]

/-- C3 (amended, confirmed). `generate_hash_index_key` computes exactly the
amended derivation, on every input. -/
theorem C3_generate_key_characterization (obj_type : String) (fields : List String)
    (values_dict : List (String × PyVal)) (obj_id : Option Int) :
    generate_hash_index_key obj_type fields values_dict obj_id
      = generate_hash_index_key_amended obj_type fields values_dict obj_id := by
  unfold generate_hash_index_key generate_hash_index_key_amended
  by_cases hf : fields.isEmpty
  · simp [hf]
  · by_cases hv : values_dict.isEmpty
    · simp [hf, hv]
    · simp only [hf, hv, Bool.not_false, Bool.and_self, if_true, Bool.or_self, if_false]
      rw [ghik_field_values_eq]
      cases hfind : (fields.filter (fun f => pyTruthy ((values_dict.lookup f).getD PyVal.none))).find?
          (fun f => !isSequenceOrInt ((values_dict.lookup f).getD PyVal.none)) with
      | some g => simp [Except.map]
      | none =>
          simp only [Except.map]
          by_cases hsurv : (fields.filter
              (fun f => pyTruthy ((values_dict.lookup f).getD PyVal.none))).isEmpty
          · simp [hsurv, List.isEmpty_iff.1 hsurv]
          · simp only [hsurv, Bool.not_false, if_true, if_false]
            have : ((fields.filter (fun f => pyTruthy ((values_dict.lookup f).getD PyVal.none))).map
                (fun f => f ++ ":" ++ pyStr ((values_dict.lookup f).getD PyVal.none))).isEmpty = false := by
              cases hcase : fields.filter (fun f => pyTruthy ((values_dict.lookup f).getD PyVal.none)) with
              | nil => rw [hcase] at hsurv; simp at hsurv
              | cons a t => simp [hcase]
            simp [this]

/- Fusion faithfulness: the `encodeConv…` functions are exactly the plain
JSON encoder applied after the source's converters, so every statement about
them is a statement about `json.dumps` of `_convert_dict_datetime(data)`. -/
mutual

/-- The fused entry encoder equals the raw encoder after `_convert_dict_datetime`. -/
theorem encodeConvEntries_eq : (d : List (String × PyVal)) →
    encodeConvEntries d = encodeRawEntries (_convert_dict_datetime d)
  | [] => rfl
  | (k, v) :: rest => by
      cases v with
      | list l =>
          exact congrArg₂ (fun y z => (Except.map Json.jarr y).bind
              (fun j => Except.map (fun tl => (k, j) :: tl) z))
            (encodeConvList_eq l) (encodeConvEntries_eq rest)
      | tuple l =>
          exact congrArg₂ (fun y z => (Except.map Json.jarr y).bind
              (fun j => Except.map (fun tl => (k, j) :: tl) z))
            (encodeConvList_eq l) (encodeConvEntries_eq rest)
      | dict d2 =>
          exact congrArg₂ (fun y z => (Except.map Json.jobj y).bind
              (fun j => Except.map (fun tl => (k, j) :: tl) z))
            (encodeConvEntries_eq d2) (encodeConvEntries_eq rest)
      | record cls d2 =>
          exact congrArg₂ (fun y z => (Except.map Json.jobj y).bind
              (fun j => Except.map (fun tl => (k, j) :: tl) z))
            (encodeConvEntries_eq d2) (encodeConvEntries_eq rest)
      | none =>
          exact congrArg (fun z => (encodeConvVal PyVal.none).bind
            (fun j => Except.map (fun tl => (k, j) :: tl) z)) (encodeConvEntries_eq rest)
      | bool b =>
          exact congrArg (fun z => (encodeConvVal (PyVal.bool b)).bind
            (fun j => Except.map (fun tl => (k, j) :: tl) z)) (encodeConvEntries_eq rest)
      | int n =>
          exact congrArg (fun z => (encodeConvVal (PyVal.int n)).bind
            (fun j => Except.map (fun tl => (k, j) :: tl) z)) (encodeConvEntries_eq rest)
      | str s =>
          exact congrArg (fun z => (encodeConvVal (PyVal.str s)).bind
            (fun j => Except.map (fun tl => (k, j) :: tl) z)) (encodeConvEntries_eq rest)
      | date y m d2 =>
          exact congrArg (fun z => (encodeConvVal (PyVal.date y m d2)).bind
            (fun j => Except.map (fun tl => (k, j) :: tl) z)) (encodeConvEntries_eq rest)
      | datetime y mo d2 h mi s mc =>
          exact congrArg (fun z => (encodeConvVal (PyVal.datetime y mo d2 h mi s mc)).bind
            (fun j => Except.map (fun tl => (k, j) :: tl) z)) (encodeConvEntries_eq rest)

/-- The fused list encoder equals the raw encoder after `_convert_list_datetime`. -/
theorem encodeConvList_eq : (l : List PyVal) →
    encodeConvList l = encodeRawList (_convert_list_datetime l)
  | [] => rfl
  | v :: rest => by
      cases v with
      | date y m d =>
          exact congrArg (fun z => (Except.ok (Json.jstr (isoDate y m d)) : Except String Json).bind
            (fun j => Except.map (fun tl => j :: tl) z)) (encodeConvList_eq rest)
      | datetime y mo d h mi s mc =>
          exact congrArg
            (fun z => (Except.ok (Json.jstr (isoDateTimeSec y mo d h mi s)) : Except String Json).bind
              (fun j => Except.map (fun tl => j :: tl) z)) (encodeConvList_eq rest)
      | none =>
          exact congrArg (fun z => (encodeRaw PyVal.none).bind
            (fun j => Except.map (fun tl => j :: tl) z)) (encodeConvList_eq rest)
      | bool b =>
          exact congrArg (fun z => (encodeRaw (PyVal.bool b)).bind
            (fun j => Except.map (fun tl => j :: tl) z)) (encodeConvList_eq rest)
      | int n =>
          exact congrArg (fun z => (encodeRaw (PyVal.int n)).bind
            (fun j => Except.map (fun tl => j :: tl) z)) (encodeConvList_eq rest)
      | str s =>
          exact congrArg (fun z => (encodeRaw (PyVal.str s)).bind
            (fun j => Except.map (fun tl => j :: tl) z)) (encodeConvList_eq rest)
      | list l2 =>
          exact congrArg (fun z => (encodeRaw (PyVal.list l2)).bind
            (fun j => Except.map (fun tl => j :: tl) z)) (encodeConvList_eq rest)
      | tuple l2 =>
          exact congrArg (fun z => (encodeRaw (PyVal.tuple l2)).bind
            (fun j => Except.map (fun tl => j :: tl) z)) (encodeConvList_eq rest)
      | dict d2 =>
          exact congrArg (fun z => (encodeRaw (PyVal.dict d2)).bind
            (fun j => Except.map (fun tl => j :: tl) z)) (encodeConvList_eq rest)
      | record cls d2 =>
          exact congrArg (fun z => (encodeRaw (PyVal.record cls d2)).bind
            (fun j => Except.map (fun tl => j :: tl) z)) (encodeConvList_eq rest)

end

/-- C9 counterexample. The claim says list elements are *recursively*
normalized; `_convert_list_datetime` maps `_convert_datetime` over the direct
elements only.  A datetime two list levels deep therefore survives conversion
and reaches the JSON encoder as a bare `datetime`, where
`RecordJSONEncoder.default` calls `.copy_record()` on it and dies with
`AttributeError` — serialization produces no JSON at all, instead of an array
with the ISO string the claim requires. -/
theorem C9_nested_list_datetime_fails :
    Record.json ⟨"TstRecord", ⟨[], [], false, []⟩, [], [], true,
        [("x", PyVal.list [PyVal.list [PyVal.datetime 2001 1 1 1 1 1 100]])]⟩
      = .error "'datetime.datetime' object has no attribute 'copy_record'" := rfl

/-- C9 (amended, confirmed). `json()` encodes exactly
`_convert_dict_datetime` of the record's data — the data only: no side
attribute and not even the class name reaches the output (first conjunct,
where the right-hand side mentions nothing but `r.data`).  The converter
renders every datetime *at dict-value position* as its ISO-8601 string with
the microsecond dropped, every date as its ISO date string (second and third
conjuncts); a list or tuple value becomes a list whose *direct* elements are
temporally converted, one level only (fourth and fifth conjuncts); a dict
value is converted recursively (sixth conjunct); and a nested record value is
expanded to its own recursively converted data, with its side attributes
never surfacing (seventh conjunct).  The last conjunct instantiates the
nested-record case end to end: the nested record serializes to its own
normalized object. -/
theorem C9_serialization_normalizes :
    (∀ r : Record, r.json = (encodeRawEntries (_convert_dict_datetime r.data)).map Json.jobj)
      ∧ (∀ y mo d h mi s mc, _convert_datetime (PyVal.datetime y mo d h mi s mc)
          = PyVal.str (isoDateTimeSec y mo d h mi s))
      ∧ (∀ y m d, _convert_datetime (PyVal.date y m d) = PyVal.str (isoDate y m d))
      ∧ (∀ k l rest, _convert_dict_datetime ((k, PyVal.list l) :: rest)
          = (k, PyVal.list (l.map _convert_datetime)) :: _convert_dict_datetime rest)
      ∧ (∀ k l rest, _convert_dict_datetime ((k, PyVal.tuple l) :: rest)
          = (k, PyVal.list (l.map _convert_datetime)) :: _convert_dict_datetime rest)
      ∧ (∀ k d2 rest, _convert_dict_datetime ((k, PyVal.dict d2) :: rest)
          = (k, PyVal.dict (_convert_dict_datetime d2)) :: _convert_dict_datetime rest)
      ∧ (∀ k cls d2 rest, _convert_dict_datetime ((k, PyVal.record cls d2) :: rest)
          = (k, PyVal.dict (_convert_dict_datetime d2)) :: _convert_dict_datetime rest)
      ∧ Record.json ⟨"TstRecord", ⟨[], [], false, []⟩, ["service", "test"],
            [("service", PyVal.str "service"), ("test", PyVal.str "test")], true,
            [("record", PyVal.record "TstRecord"
                [("datetime", PyVal.datetime 2001 1 1 1 1 1 100),
                 ("date", PyVal.date 2001 1 1)])]⟩
          = .ok (.jobj [("record", .jobj [("datetime", .jstr "2001-01-01T01:01:01"),
              ("date", .jstr "2001-01-01")])]) := by
  refine ⟨?_, fun y mo d h mi s mc => rfl, fun y m d => rfl,
    fun k l rest => rfl, fun k l rest => rfl, fun k d2 rest => rfl,
    fun k cls d2 rest => rfl, rfl⟩
  intro r
  show (encodeConvEntries r.data).map Json.jobj = _
  rw [encodeConvEntries_eq r.data]

/-- C4 (code_bug evidence). The claim (and the method's own docstring, "Keys
from slots can be included in hash_index_fields"): `get_hash_index_key`
builds the value lookup from the data plus the side attributes named in the
key-field list and returns the generator's result, including when those side
attributes are not declared record fields.  But the lookup is built with
`self.copy_record(**slots_dict)`, which re-runs the validator: with `fields`
declared, the merged mapping's keys are a proper superset of `fields`, so the
call raises the extra-keys `KeyError` instead of returning a key.  The first
conjunct shows the instance is exactly what construction produces; the second
shows `get_hash_index_key` raising. -/
theorem C4_slot_key_field_breaks_validation :
    record_init "HashSlotRecord" hashSlotPolicy ["service", "test"]
        [("service", PyVal.str "svc"), ("test", PyVal.str "t")] [("a", PyVal.int 1)]
        = .ok hashSlotRec
      ∧ hashSlotRec.get_hash_index_key
        = .error "Extra keys: test. Only the following keys can be used in the record: a" :=
  ⟨rfl, rfl⟩

/-- C6 (confirmed). On any initialized record (construction always seals the
instance, `record_init` sets `_initialized := true`), every attribute or item
set/delete fails with a `TypeError` whose message names the class and
distinguishes the attribute access path from the item access path; since the
operation raises, no new record state is produced and `data` and the side
attributes are unchanged. -/
theorem C6_immutability_violations (r : Record) (n : String) (v : PyVal)
    (h : r._initialized = true) :
    r.setattr n v
        = .error ("'" ++ r.className ++ "' object does not support attribute assignment")
      ∧ r.delattr n
        = .error ("'" ++ r.className ++ "' object does not support attribute deletion")
      ∧ r.setitem n v
        = .error ("'" ++ r.className ++ "' object does not support item assignment")
      ∧ r.delitem n
        = .error ("'" ++ r.className ++ "' object does not support item deletion")
      ∧ ("'" ++ r.className ++ "' object does not support attribute assignment")
          ≠ ("'" ++ r.className ++ "' object does not support item assignment")
      ∧ ("'" ++ r.className ++ "' object does not support attribute deletion")
          ≠ ("'" ++ r.className ++ "' object does not support item deletion") := by
  refine ⟨?_, ?_, rfl, rfl, ?_, ?_⟩
  · rw [Record.setattr, if_pos h]
  · rw [Record.delattr, if_pos h]
  · exact append_right_ne (by decide)
  · exact append_right_ne (by decide)

/-- Witness for C6: the `FieldRecord` fixture is initialized, and every
mutation attempt on it raises the corresponding immutability error. -/
theorem C6_immutability_violations_witness :
    fieldRec.setitem "a" (PyVal.int 9)
      = .error "'FieldRecord' object does not support item assignment" :=
  (C6_immutability_violations fieldRec "a" (PyVal.int 9) rfl).2.2.1

/-- C10 (confirmed). `Record.__eq__` delegates entirely to the underlying
data mapping: it is literally mapping equality of the two `data` mappings,
with the concrete class name (and policy, slots, side attributes) never
participating; consequently two records of *different* concrete subtypes
whose duplicate-free data mappings hold the same key/value pairs compare
equal. -/
theorem C10_eq_ignores_concrete_type :
    (∀ cn₁ p₁ sn₁ sv₁ i₁ d₁ cn₂ p₂ sn₂ sv₂ i₂ d₂,
        Record.eqRecord ⟨cn₁, p₁, sn₁, sv₁, i₁, d₁⟩ ⟨cn₂, p₂, sn₂, sv₂, i₂, d₂⟩
          = pyDictEq d₁ d₂)
      ∧ (∀ r₁ r₂ : Record, r₁.data.Perm r₂.data → (r₁.data.map Prod.fst).Nodup →
          r₁.eqRecord r₂ = true) :=
  ⟨fun _ _ _ _ _ _ _ _ _ _ _ _ => rfl,
    fun _ _ p nd => pyDictEq_of_perm p nd⟩

/-- C2 (confirmed). `copy_record` merges the overrides over the record's data
(overrides win, via `frozendict.copy`) and re-runs `_set_record` under the
record's own policy, so its outcome — error or validated mapping — is exactly
the outcome of a fresh construction of the same type with the merged data
(first conjunct, in full generality).  Concretely, on the `FieldRecord`
fixture: overriding the required field `a` with `None` raises the same
null-required error as the fresh construction with the merged data does
(second and third conjuncts); an override that keeps the record valid
produces the validated merged mapping (fourth conjunct). -/
theorem C2_copy_with_revalidates :
    (∀ (cn : String) (p : Policy) (sn : List String)
        (sv raw ov : List (String × PyVal)) (r : Record),
        record_init cn p sn sv raw = .ok r →
        r.copy_record ov = (record_init cn p sn sv (dict_copy r.data ov)).map Record.data)
      ∧ fieldRec.copy_record [("a", PyVal.none)]
          = .error "The following field can not be None: a"
      ∧ record_init "FieldRecord" fieldPolicy ["service", "test"]
          [("service", PyVal.str "red"), ("test", PyVal.int 1)]
          (dict_copy fieldRec.data [("a", PyVal.none)])
          = .error "The following field can not be None: a"
      ∧ fieldRec.copy_record [("c", PyVal.int 7)]
          = .ok [("a", PyVal.int 2), ("b", PyVal.int 3), ("c", PyVal.int 7)] := by
  refine ⟨?_, rfl, rfl, rfl⟩
  intro cn p sn sv raw ov r h
  rw [record_init] at h
  cases hsr : _set_record p raw with
  | error e => rw [hsr] at h; cases h
  | ok d =>
      rw [hsr] at h
      simp only [Except.map] at h
      cases h
      rw [Record.copy_record, record_init]
      cases hsr2 : _set_record p (dict_copy d ov) with
      | error e => simp [hsr2, Except.map]
      | ok d2 => simp [hsr2, Except.map]

/-- Witness for C2: the general conjunct applied to the `FieldRecord`
construction and the null override of the test suite. -/
theorem C2_copy_with_revalidates_witness :
    fieldRec.copy_record [("a", PyVal.none)]
      = (record_init "FieldRecord" fieldPolicy ["service", "test"]
          [("service", PyVal.str "red"), ("test", PyVal.int 1)]
          (dict_copy fieldRec.data [("a", PyVal.none)])).map Record.data :=
  C2_copy_with_revalidates.1 "FieldRecord" fieldPolicy ["service", "test"]
    [("service", PyVal.str "red"), ("test", PyVal.int 1)]
    [("a", PyVal.int 2), ("b", PyVal.int 3), ("c", PyVal.int 4)]
    [("a", PyVal.none)] fieldRec rfl

/-- The keys of the built ordered mapping are the declared fields. -/
theorem map_fst_map_pair (g : String → PyVal) :
    ∀ fs : List String, (fs.map (fun f => (f, g f))).map Prod.fst = fs := by
  intro fs
  induction fs with
  | nil => rfl
  | cons a t ih => simp only [List.map_cons]; rw [ih]

/-- A successful validation under a declared `fields` list always builds the
ordered mapping over `fields` in declared order, defaulting to `None`. -/
theorem _set_record_ok_fields {p : Policy} {raw d : List (String × PyVal)}
    (hf : p.fields ≠ []) (h : _set_record p raw = .ok d) :
    d = p.fields.map (fun f => (f, (raw.lookup f).getD .none)) := by
  rw [_set_record] at h
  cases hc : _check_non_null p raw with
  | error e => rw [hc] at h; cases h
  | ok u =>
      rw [hc] at h
      simp only [Except.bind] at h
      rw [_apply_fields] at h
      rw [if_pos (by simpa using hf)] at h
      split at h
      · cases h
      · split at h
        · cases h
        · injection h with h'
          exact h'.symm

/-- C8 (confirmed). Whenever a policy declares `fields` and validation
succeeds — whatever the order and extent of the supplied arguments — the
resulting record's key sequence (`keys()` and iteration order) is exactly the
declared `fields` sequence, and every declared field that was not supplied is
present with value `None`. -/
theorem C8_field_order_determinism :
    ∀ (p : Policy) (raw d : List (String × PyVal)), p.fields ≠ [] →
      _set_record p raw = .ok d →
      d.map Prod.fst = p.fields
        ∧ ∀ f, f ∈ p.fields → raw.lookup f = Option.none → d.lookup f = some PyVal.none := by
  intro p raw d hf h
  have hd := _set_record_ok_fields hf h
  subst hd
  refine ⟨map_fst_map_pair _ p.fields, ?_⟩
  intro f hfin hnone
  rw [lookup_map_apply _ _ _ hfin, hnone]
  rfl

/-- Witness for C8: `fields = (a, b, c)` constructed with only `b` supplied
yields keys `a, b, c` in declared order, with the unsupplied `a` present and
`None`. -/
theorem C8_field_order_determinism_witness :
    ([("a", PyVal.none), ("b", PyVal.int 3), ("c", PyVal.none)].map Prod.fst
        = ["a", "b", "c"])
      ∧ [("a", PyVal.none), ("b", PyVal.int 3), ("c", PyVal.none)].lookup "a"
          = some PyVal.none := by
  have h := C8_field_order_determinism plainFieldsPolicy [("b", PyVal.int 3)]
    [("a", PyVal.none), ("b", PyVal.int 3), ("c", PyVal.none)]
    (by decide) rfl
  exact ⟨h.1, h.2 "a" (by decide) rfl⟩

/-- C7 (confirmed). Equality and hashing are defined over the record data
only: (1) two instances of the same type with identical data but different
side attributes compare equal and hash equal, for any per-item hash `h`;
(2) a record equals any duplicate-free plain mapping holding the same
key/value pairs in any order; (3) its hash equals the hash of an equivalent
plain frozen mapping whatever that mapping's entry order (so, when `fields`
is undefined, whatever the construction order was); (4) two records whose
data disagree on the value of some key are unequal. -/
theorem C7_eq_hash_defined_over_data :
    (∀ (cn : String) (p : Policy) (sn sn' : List String)
        (sv sv' d : List (String × PyVal)) (h : String × PyVal → Nat),
        Record.eqRecord ⟨cn, p, sn, sv, true, d⟩ ⟨cn, p, sn', sv', true, d⟩ = true
          ∧ Record.hashRecord h ⟨cn, p, sn, sv, true, d⟩
              = Record.hashRecord h ⟨cn, p, sn', sv', true, d⟩)
      ∧ (∀ (r : Record) (m : List (String × PyVal)), m.Perm r.data →
          (m.map Prod.fst).Nodup → r.eqDict m = true)
      ∧ (∀ (h : String × PyVal → Nat) (r : Record) (m : List (String × PyVal)),
          m.Perm r.data → frozendict_hash h m = r.hashRecord h)
      ∧ (∀ (r₁ r₂ : Record) (k : String) (v₁ v₂ : PyVal),
          r₁.data.lookup k = some v₁ → r₂.data.lookup k = some v₂ →
          PyVal.beq v₁ v₂ = false → r₁.eqRecord r₂ = false) := by
  refine ⟨fun cn p sn sn' sv sv' d h => ⟨pyDictEq_refl d, rfl⟩,
    fun r m p nd => pyDictEq_of_perm p nd,
    fun h r m p => frozendict_hash_perm h p 0,
    ?_⟩
  intro r₁ r₂ k v₁ v₂ h₁ h₂ hne
  obtain ⟨q, hq, hqk⟩ := lookup_mem h₁
  rw [Record.eqRecord, pyDictEq]
  have hcl : optBeq (r₁.data.lookup q.1) (r₂.data.lookup q.1) = false := by
    rw [hqk, h₁, h₂]
    exact hne
  have hall : r₁.data.all
      (fun kv => optBeq (r₁.data.lookup kv.1) (r₂.data.lookup kv.1)) = false := by
    cases hv : r₁.data.all
        (fun kv => optBeq (r₁.data.lookup kv.1) (r₂.data.lookup kv.1)) with
    | false => rfl
    | true => exact absurd (List.all_eq_true.1 hv q hq) (by simp [hcl])
  rw [hall, Bool.false_and]

/-- Witness for C7: the `FieldRecord` fixture equals the same data supplied
in a different order; it equals a copy with different side attributes; its
hash is order-invariant; and changing the value of `c` breaks equality. -/
theorem C7_eq_hash_defined_over_data_witness :
    Record.eqDict fieldRec
        [("b", PyVal.int 3), ("a", PyVal.int 2), ("c", PyVal.int 4)] = true
      ∧ frozendict_hash (fun kv => kv.2.beq PyVal.none |>.toNat)
          [("b", PyVal.int 3), ("a", PyVal.int 2), ("c", PyVal.int 4)]
          = fieldRec.hashRecord (fun kv => kv.2.beq PyVal.none |>.toNat)
      ∧ Record.eqRecord fieldRec
          ⟨"FieldRecord", fieldPolicy, ["service", "test"],
            [("service", PyVal.str "red"), ("test", PyVal.int 1)], true,
            [("a", PyVal.int 2), ("b", PyVal.int 3), ("c", PyVal.int 5)]⟩ = false := by
  refine ⟨C7_eq_hash_defined_over_data.2.1 fieldRec _ (List.Perm.swap _ _ _) (by decide),
    C7_eq_hash_defined_over_data.2.2.1 _ fieldRec _ (List.Perm.swap _ _ _),
    C7_eq_hash_defined_over_data.2.2.2 fieldRec _ "c" (PyVal.int 4) (PyVal.int 5) rfl rfl rfl⟩

/-- Witness for C10: a `FieldRecord` and a record of a different concrete
subtype (different class name, policy and side attributes) with the same
key/value pairs in a different order compare equal. -/
theorem C10_eq_ignores_concrete_type_witness :
    Record.eqRecord fieldRec
      ⟨"OtherRecord", ⟨[], [], false, []⟩, [], [], true,
        [("c", PyVal.int 4), ("a", PyVal.int 2), ("b", PyVal.int 3)]⟩ = true := by
  refine C10_eq_ignores_concrete_type.2 fieldRec _ ?_ (by decide)
  refine List.Perm.trans ?_ (List.Perm.swap _ _ _)
  exact List.Perm.cons _ (List.Perm.swap _ _ _)

end Dubplate
